import Mathlib

/-!
Shallow embedding of the user-management CRUD service
(backend: Express + Drizzle over MySQL; frontend: React + react-hook-form + zod).

Request bodies are modelled as JSON objects whose values are scalars
(string / number / null) — every field of the `users` schema is scalar, and
extraneous keys a caller might inject (id, createdAt, updatedAt) are scalar
as well.  Timestamps are modelled as natural numbers; the database is a list
of rows plus the auto-increment counter.
-/

deriving instance DecidableEq for Except

/-- Scalar JSON value occurring in a request body or a serialized response. -/
inductive SVal where
  | s (v : String)
  | n (v : Int)
  | null
deriving DecidableEq

/-- A JSON object: association list from keys to scalar values. -/
abbrev ReqBody := List (String × SVal)

/-- Key lookup in a JSON object (first binding wins, as in parsed JSON). -/
def getKey (o : ReqBody) (k : String) : Option SVal :=
  (o.find? (fun p => p.1 == k)).map (fun p => p.2)

/-- One zod issue as serialized by the `validateRequest` middleware:
`{ path: err.path.join('.'), message: err.message }`. -/
structure FieldError where
  path : String
  message : String
deriving DecidableEq

/-- A row of the `users` table (backend/src/db/schema/users.js):
id auto-increment primary key, name/email/role/status NOT NULL,
avatar nullable, created_at / updated_at timestamps. -/
structure Row where
  id : Nat
  name : String
  email : String
  avatar : Option String
  role : String
  status : String
  createdAt : Nat
  updatedAt : Nat
deriving DecidableEq

/-- The `users` table plus the auto-increment counter. -/
structure Db where
  rows : List Row
  nextId : Nat
deriving DecidableEq

/-!  Structural character-list implementations of the string operations the
JavaScript runtime supplies (split, trim, numeric parse, first-occurrence
replace), so that every definition evaluates inside the kernel. -/

/-- Drop `pat` from the front of a character list, when it is there. -/
def dropLead : List Char → List Char → Option (List Char)
  | [], cs => some cs
  | _ :: _, [] => none
  | p :: ps, c :: cs => if p == c then dropLead ps cs else none

/-- Fuel-driven worker for `splitOnCL`; the fuel bounds the input length, so
the fuel-exhausted branch is unreachable for the non-empty separators this
development uses. -/
def splitOnCLAux (pat : List Char) : Nat → List Char → List Char → List (List Char)
  | _, [], acc => [acc.reverse]
  | 0, cs, acc => [acc.reverse ++ cs]
  | fuel + 1, c :: cs, acc =>
    match dropLead pat (c :: cs) with
    | some rest => acc.reverse :: splitOnCLAux pat fuel rest []
    | none => splitOnCLAux pat fuel cs (c :: acc)

/-- `String.prototype.split` with a non-empty string separator, on
character lists. -/
def splitOnCL (pat cs : List Char) : List (List Char) :=
  splitOnCLAux pat cs.length cs []

/-- JavaScript whitespace for `trim`. -/
def isWsChar (c : Char) : Bool :=
  c == ' ' || c == '\t' || c == '\n' || c == '\r'

/-- `String.prototype.trim` on character lists. -/
def trimCL (cs : List Char) : List Char :=
  ((cs.dropWhile isWsChar).reverse.dropWhile isWsChar).reverse

/-- Decimal value of a digit list. -/
def natOfDigits (cs : List Char) : Nat :=
  cs.foldl (fun acc c => acc * 10 + (c.toNat - 48)) 0

/-- Modelled from zod `z.string().email()`: the character class of the local
part of the v3 email pattern (alphanumerics, underscore, apostrophe, plus,
hyphen, dot). -/
def isEmailLocalChar (c : Char) : Bool :=
  c.isAlphanum || c == '_' || c.toNat == 39 || c == '+' || c == '-' || c == '.'

/-- Characters allowed at the end of the local part (no dot, no apostrophe). -/
def isEmailLocalEndChar (c : Char) : Bool :=
  c.isAlphanum || c == '_' || c == '+' || c == '-'

/-- Modelled from zod `z.string().email()` (v3 regex): local part from the
local character class, not starting with a dot, no double dot, ending in an
alphanumeric/underscore/plus/hyphen; domain is dot-separated labels, the
last being alphabetic of length at least 2, the others starting alphanumeric
and continuing alphanumeric-or-hyphen. -/
def isEmail (str : String) : Bool :=
  match splitOnCL ['@'] str.toList with
  | [localPart, domain] =>
    localPart ≠ [] &&
    localPart.all isEmailLocalChar &&
    isEmailLocalEndChar (localPart.getLastD ' ') &&
    !(localPart.headD ' ' == '.') &&
    (splitOnCL ['.', '.'] localPart).length == 1 &&
    (let labels := splitOnCL ['.'] domain
     labels.length ≥ 2 &&
     (labels.getLastD []).length ≥ 2 &&
     (labels.getLastD []).all Char.isAlpha &&
     (labels.dropLast.all (fun l =>
        l ≠ [] && (l.headD ' ').isAlphanum &&
        l.all (fun c => c.isAlphanum || c == '-'))))
  | _ => false

/-- Modelled from zod `z.string().url()`, which accepts exactly the strings
the WHATWG `new URL(...)` constructor accepts.  We model the
`scheme://non-empty-rest` fragment of that grammar, which covers every URL
this system manipulates; the empty string and whitespace-only strings are
rejected, as they are by `new URL`. -/
def isUrl (str : String) : Bool :=
  match splitOnCL [':', '/', '/'] str.toList with
  | [scheme, rest] =>
    scheme ≠ [] &&
    scheme.all (fun c => c.isAlphanum || c == '+' || c == '-' || c == '.') &&
    rest ≠ []
  | _ => false

/-- Issues of a failed parse of one field (zod reports one issue per failing
check here, since every field carries a single check). -/
def errsOf {α : Type} : Except FieldError α → List FieldError
  | .error e => [e]
  | .ok _ => []

/-- Normalized output of the full (create) user schema: the five declared
fields, unknown keys stripped, role/status defaults applied. -/
structure UserFull where
  name : String
  email : String
  avatar : Option String
  role : String
  status : String
deriving DecidableEq

/-- Normalized output of the `.partial()` (update) schema: every field
optional, `none` meaning the key was not supplied (zod omits absent optional
keys from its output and injects no defaults through `.optional()`). -/
structure UserPatch where
  name : Option String
  email : Option String
  avatar : Option String
  role : Option String
  status : Option String
deriving DecidableEq

namespace Backend

/-- Field `name: z.string().min(2, { message: 'Name must be at least 2 characters long' })`. -/
def parseName (o : ReqBody) : Except FieldError String :=
  match getKey o "name" with
  | none => .error ⟨"name", "Required"⟩
  | some (.s v) =>
    if 2 ≤ v.length then .ok v
    else .error ⟨"name", "Name must be at least 2 characters long"⟩
  | some _ => .error ⟨"name", "Expected string"⟩

/-- Field `email: z.string().email({ message: 'Invalid email address' })`. -/
def parseEmail (o : ReqBody) : Except FieldError String :=
  match getKey o "email" with
  | none => .error ⟨"email", "Required"⟩
  | some (.s v) =>
    if isEmail v then .ok v
    else .error ⟨"email", "Invalid email address"⟩
  | some _ => .error ⟨"email", "Expected string"⟩

/-- Field `avatar: z.string().url({ message: 'Avatar must be a valid URL' }).optional()`:
an absent key is accepted as undefined; a present value must be a string
that parses as a URL — the empty string is not one. -/
def parseAvatar (o : ReqBody) : Except FieldError (Option String) :=
  match getKey o "avatar" with
  | none => .ok none
  | some (.s v) =>
    if isUrl v then .ok (some v)
    else .error ⟨"avatar", "Avatar must be a valid URL"⟩
  | some _ => .error ⟨"avatar", "Expected string"⟩

/-- Field `role: z.enum(['admin', 'user']).default('user')`. -/
def parseRole (o : ReqBody) : Except FieldError String :=
  match getKey o "role" with
  | none => .ok "user"
  | some (.s v) =>
    if v == "admin" || v == "user" then .ok v
    else .error ⟨"role", "Invalid enum value"⟩
  | some _ => .error ⟨"role", "Invalid enum value"⟩

/-- Field `status: z.enum(['active', 'inactive']).default('active')`. -/
def parseStatus (o : ReqBody) : Except FieldError String :=
  match getKey o "status" with
  | none => .ok "active"
  | some (.s v) =>
    if v == "active" || v == "inactive" then .ok v
    else .error ⟨"status", "Invalid enum value"⟩
  | some _ => .error ⟨"status", "Invalid enum value"⟩

/-- Issues collected across all five fields, in shape order, as
`ZodError.errors` reports them. -/
def userSchemaErrors (o : ReqBody) : List FieldError :=
  errsOf (parseName o) ++ errsOf (parseEmail o) ++ errsOf (parseAvatar o) ++
    errsOf (parseRole o) ++ errsOf (parseStatus o)

/-- `userSchema` of backend/src/schemas/user.schema.js: a `z.object` over the
five fields; unknown keys are stripped; on success the normalized record is
returned, otherwise every field issue is reported. -/
def userSchema (o : ReqBody) : Except (List FieldError) UserFull :=
  match parseName o, parseEmail o, parseAvatar o, parseRole o, parseStatus o with
  | .ok n, .ok e, .ok a, .ok r, .ok st => .ok ⟨n, e, a, r, st⟩
  | _, _, _, _, _ => .error (userSchemaErrors o)

/-- Per-field parser of `userSchema.partial()`: each field is wrapped in
`.optional()`, so an absent key yields no output entry and triggers no
default; a present value is checked exactly as in the full schema. -/
def parseNameP (o : ReqBody) : Except FieldError (Option String) :=
  match getKey o "name" with
  | none => .ok none
  | some (.s v) =>
    if 2 ≤ v.length then .ok (some v)
    else .error ⟨"name", "Name must be at least 2 characters long"⟩
  | some _ => .error ⟨"name", "Expected string"⟩

/-- Partial variant of the email field. -/
def parseEmailP (o : ReqBody) : Except FieldError (Option String) :=
  match getKey o "email" with
  | none => .ok none
  | some (.s v) =>
    if isEmail v then .ok (some v)
    else .error ⟨"email", "Invalid email address"⟩
  | some _ => .error ⟨"email", "Expected string"⟩

/-- Partial variant of the avatar field (identical to the full one: it was
already optional). -/
def parseAvatarP (o : ReqBody) : Except FieldError (Option String) :=
  parseAvatar o

/-- Partial variant of the role field: no default is injected. -/
def parseRoleP (o : ReqBody) : Except FieldError (Option String) :=
  match getKey o "role" with
  | none => .ok none
  | some (.s v) =>
    if v == "admin" || v == "user" then .ok (some v)
    else .error ⟨"role", "Invalid enum value"⟩
  | some _ => .error ⟨"role", "Invalid enum value"⟩

/-- Partial variant of the status field: no default is injected. -/
def parseStatusP (o : ReqBody) : Except FieldError (Option String) :=
  match getKey o "status" with
  | none => .ok none
  | some (.s v) =>
    if v == "active" || v == "inactive" then .ok (some v)
    else .error ⟨"status", "Invalid enum value"⟩
  | some _ => .error ⟨"status", "Invalid enum value"⟩

/-- Issues of the partial schema across all five fields, in shape order. -/
def userUpdateSchemaErrors (o : ReqBody) : List FieldError :=
  errsOf (parseNameP o) ++ errsOf (parseEmailP o) ++ errsOf (parseAvatarP o) ++
    errsOf (parseRoleP o) ++ errsOf (parseStatusP o)

/-- `userUpdateSchema = userSchema.partial()` of backend/src/schemas/user.schema.js. -/
def userUpdateSchema (o : ReqBody) : Except (List FieldError) UserPatch :=
  match parseNameP o, parseEmailP o, parseAvatarP o, parseRoleP o, parseStatusP o with
  | .ok n, .ok e, .ok a, .ok r, .ok st => .ok ⟨n, e, a, r, st⟩
  | _, _, _, _, _ => .error (userUpdateSchemaErrors o)

end Backend

namespace Frontend

/-- Field `name: z.string().min(2, { message: 'Nome deve ter pelo menos 2 caracteres' })`. -/
def parseName (o : ReqBody) : Except FieldError String :=
  match getKey o "name" with
  | none => .error ⟨"name", "Required"⟩
  | some (.s v) =>
    if 2 ≤ v.length then .ok v
    else .error ⟨"name", "Nome deve ter pelo menos 2 caracteres"⟩
  | some _ => .error ⟨"name", "Expected string"⟩

/-- Field `email: z.string().email({ message: 'Email inválido' })`. -/
def parseEmail (o : ReqBody) : Except FieldError String :=
  match getKey o "email" with
  | none => .error ⟨"email", "Required"⟩
  | some (.s v) =>
    if isEmail v then .ok v
    else .error ⟨"email", "Email inválido"⟩
  | some _ => .error ⟨"email", "Expected string"⟩

/-- Field `avatar: z.string().url("URL inválida").optional().or(z.literal(''))`:
the union first tries the optional URL string (absent key accepted as
undefined, present value must be a URL), then the empty-string literal —
so unlike the backend, a present empty string is accepted, with value ``. -/
def parseAvatar (o : ReqBody) : Except FieldError (Option String) :=
  match getKey o "avatar" with
  | none => .ok none
  | some (.s v) =>
    if isUrl v then .ok (some v)
    else if v == "" then .ok (some "")
    else .error ⟨"avatar", "URL inválida"⟩
  | some _ => .error ⟨"avatar", "Invalid input"⟩

/-- Field `role: z.enum(['admin','user'], { errorMap ... }).default('user')`. -/
def parseRole (o : ReqBody) : Except FieldError String :=
  match getKey o "role" with
  | none => .ok "user"
  | some (.s v) =>
    if v == "admin" || v == "user" then .ok v
    else .error ⟨"role", "Papel deve ser admin ou user"⟩
  | some _ => .error ⟨"role", "Papel deve ser admin ou user"⟩

/-- Field `status: z.enum(['active','inactive'], { errorMap ... }).default('active')`. -/
def parseStatus (o : ReqBody) : Except FieldError String :=
  match getKey o "status" with
  | none => .ok "active"
  | some (.s v) =>
    if v == "active" || v == "inactive" then .ok v
    else .error ⟨"status", "Status deve ser active ou inactive"⟩
  | some _ => .error ⟨"status", "Status deve ser active ou inactive"⟩

/-- Issues collected across all five fields, in shape order. -/
def userSchemaErrors (o : ReqBody) : List FieldError :=
  errsOf (parseName o) ++ errsOf (parseEmail o) ++ errsOf (parseAvatar o) ++
    errsOf (parseRole o) ++ errsOf (parseStatus o)

/-- `userSchema` of frontend/src/schemas/userSchema.js. -/
def userSchema (o : ReqBody) : Except (List FieldError) UserFull :=
  match parseName o, parseEmail o, parseAvatar o, parseRole o, parseStatus o with
  | .ok n, .ok e, .ok a, .ok r, .ok st => .ok ⟨n, e, a, r, st⟩
  | _, _, _, _, _ => .error (userSchemaErrors o)

/-- Per-field parser of the frontend `userSchema.partial()` (the resolver
UserForm uses in edit mode): each field wrapped in `.optional()`, so an
absent key yields no output entry and triggers no default; a present value
is checked exactly as in the full schema. -/
def parseNameP (o : ReqBody) : Except FieldError (Option String) :=
  match getKey o "name" with
  | none => .ok none
  | some (.s v) =>
    if 2 ≤ v.length then .ok (some v)
    else .error ⟨"name", "Nome deve ter pelo menos 2 caracteres"⟩
  | some _ => .error ⟨"name", "Expected string"⟩

/-- Partial variant of the frontend email field. -/
def parseEmailP (o : ReqBody) : Except FieldError (Option String) :=
  match getKey o "email" with
  | none => .ok none
  | some (.s v) =>
    if isEmail v then .ok (some v)
    else .error ⟨"email", "Email inválido"⟩
  | some _ => .error ⟨"email", "Expected string"⟩

/-- Partial variant of the frontend avatar field (identical to the full
one: it was already optional, and the empty-string literal stays accepted). -/
def parseAvatarP (o : ReqBody) : Except FieldError (Option String) :=
  parseAvatar o

/-- Partial variant of the frontend role field: no default is injected. -/
def parseRoleP (o : ReqBody) : Except FieldError (Option String) :=
  match getKey o "role" with
  | none => .ok none
  | some (.s v) =>
    if v == "admin" || v == "user" then .ok (some v)
    else .error ⟨"role", "Papel deve ser admin ou user"⟩
  | some _ => .error ⟨"role", "Papel deve ser admin ou user"⟩

/-- Partial variant of the frontend status field: no default is injected. -/
def parseStatusP (o : ReqBody) : Except FieldError (Option String) :=
  match getKey o "status" with
  | none => .ok none
  | some (.s v) =>
    if v == "active" || v == "inactive" then .ok (some v)
    else .error ⟨"status", "Status deve ser active ou inactive"⟩
  | some _ => .error ⟨"status", "Status deve ser active ou inactive"⟩

/-- Issues of the frontend partial schema across all five fields, in shape
order. -/
def userUpdateSchemaErrors (o : ReqBody) : List FieldError :=
  errsOf (parseNameP o) ++ errsOf (parseEmailP o) ++ errsOf (parseAvatarP o) ++
    errsOf (parseRoleP o) ++ errsOf (parseStatusP o)

/-- `userSchema.partial()` as UserForm passes it to zodResolver in edit
mode (exported as `userUpdateSchema` by frontend/src/schemas/userSchema.js). -/
def userUpdateSchema (o : ReqBody) : Except (List FieldError) UserPatch :=
  match parseNameP o, parseEmailP o, parseAvatarP o, parseRoleP o, parseStatusP o with
  | .ok n, .ok e, .ok a, .ok r, .ok st => .ok ⟨n, e, a, r, st⟩
  | _, _, _, _, _ => .error (userUpdateSchemaErrors o)

end Frontend

/-!  JavaScript `Number(...)` coercion for the `:id` path parameter. -/

/-- Result of coercing a string with JavaScript `Number(...)`: NaN, an
integer value, or a finite non-integer value (whose exact magnitude is
irrelevant here: a non-integer never equals an integer row id). -/
inductive JsNum where
  | nan
  | intVal (n : Int)
  | nonInt
deriving DecidableEq

/-- Modelled from JavaScript `Number(string)` on the decimal fragment of its
grammar: leading/trailing whitespace trimmed, empty string is 0, optional
sign, `digits`, `digits.digits`, `digits.` or `.digits`; a non-empty
fractional part of zeros still denotes an integer.  Hexadecimal and exponent
forms, which the routes never receive in this system, fall to NaN. -/
def jsNumber (str : String) : JsNum :=
  let t := trimCL str.toList
  if t == [] then .intVal 0
  else
    let (sign, digits) :=
      match t with
      | '-' :: rest => ((-1 : Int), rest)
      | '+' :: rest => ((1 : Int), rest)
      | _ => ((1 : Int), t)
    match splitOnCL ['.'] digits with
    | [ip] =>
      if ip ≠ [] && ip.all Char.isDigit then .intVal (sign * natOfDigits ip) else .nan
    | [ip, fp] =>
      if (ip ≠ [] || fp ≠ []) && ip.all Char.isDigit && fp.all Char.isDigit then
        if fp.all (fun c => c == '0') then .intVal (sign * natOfDigits ip)
        else .nonInt
      else .nan
    | _ => .nan

/-- The drizzle predicate `eq(users.id, id)` applied with the coerced path
parameter: only an integer value can equal an integer row id. -/
def JsNum.matchesId : JsNum → Nat → Bool
  | .intVal n, rid => n == (rid : Int)
  | _, _ => false

/-!  HTTP responses. -/

/-- Response body shapes this API produces. `insertId i` is the first
element of drizzle MySQL `$returningId()`, i.e. the JSON object with the
single key `id`. -/
inductive RespBody where
  | userRow (r : Row)
  | userRows (rs : List Row)
  | insertId (id : Nat)
  | message (m : String)
  | validationError (errs : List FieldError)
deriving DecidableEq

/-- An HTTP response: status code plus optional JSON body (`none` models
`res.status(204).send()` and `res.json(undefined)`). -/
structure Resp where
  status : Nat
  body : Option RespBody
deriving DecidableEq

/-- JSON serialization of a nullable column value. -/
def SVal.ofOptStr : Option String → SVal
  | none => .null
  | some v => .s v

/-- JSON object serialization of a user row, as `res.json` emits it. -/
def Row.jsonFields (r : Row) : List (String × SVal) :=
  [("id", .n r.id), ("name", .s r.name), ("email", .s r.email),
   ("avatar", SVal.ofOptStr r.avatar), ("role", .s r.role),
   ("status", .s r.status), ("createdAt", .n r.createdAt),
   ("updatedAt", .n r.updatedAt)]

/-- JSON object serialization of the object-shaped response bodies
(arrays and the error shapes are not flat objects of scalars). -/
def RespBody.jsonFields : RespBody → Option (List (String × SVal))
  | .userRow r => some r.jsonFields
  | .insertId i => some [("id", .n i)]
  | .message m => some [("message", .s m)]
  | _ => none

/-!  Route handlers of backend/src/routes/users.routes.js.  Each handler
takes the current wall-clock instant `now` (the value `new Date()` /
MySQL `now()` would produce during the request) and the database state, and
returns the response together with the new state. -/

/-- The 400 response of the `validateRequest` middleware
(backend/src/middlewares/validate-request.js). -/
def validationErrorResp (errs : List FieldError) : Resp :=
  ⟨400, some (.validationError errs)⟩

/-- `router.get('/')`: SELECT * FROM users, 200 with the full list. -/
def listUsers (db : Db) : Resp × Db :=
  (⟨200, some (.userRows db.rows)⟩, db)

/-- `router.get('/:id')`: coerce the id with `Number`, 400 on NaN, then
select by id; 404 when no row matches, otherwise 200 with the row. -/
def getUserById (db : Db) (idStr : String) : Resp × Db :=
  match jsNumber idStr with
  | .nan => (⟨400, some (.message "Formato de ID inválido")⟩, db)
  | idv =>
    match db.rows.filter (fun r => idv.matchesId r.id) with
    | [] => (⟨404, some (.message "Usuário não encontrado")⟩, db)
    | r :: _ => (⟨200, some (.userRow r)⟩, db)

/-- `router.post('/', validateRequest(userSchema))`: validate (400 with the
issue list on failure, storage untouched), then INSERT; the unique
constraint on email raises ER_DUP_ENTRY, mapped to 409 `Email já existe`;
on success the row is stored with auto-increment id and both timestamps set
to now, and the response is 201 with `$returningId()`s first element. -/
def createUser (now : Nat) (db : Db) (body : ReqBody) : Resp × Db :=
  match Backend.userSchema body with
  | .error errs => (validationErrorResp errs, db)
  | .ok u =>
    if db.rows.any (fun r => r.email == u.email) then
      (⟨409, some (.message "Email já existe")⟩, db)
    else
      (⟨201, some (.insertId db.nextId)⟩,
       ⟨db.rows ++ [⟨db.nextId, u.name, u.email, u.avatar, u.role, u.status, now, now⟩],
        db.nextId + 1⟩)

/-- The merge performed by `db.update(users).set({ ...req.body, updatedAt: new Date() })`:
supplied fields overwrite, absent fields keep their column value, id and
created_at are never in the validated body. -/
def applyUpdate (r : Row) (p : UserPatch) (now : Nat) : Row :=
  { r with
    name := p.name.getD r.name,
    email := p.email.getD r.email,
    avatar := match p.avatar with | some a => some a | none => r.avatar,
    role := p.role.getD r.role,
    status := p.status.getD r.status,
    updatedAt := now }

/-- The ER_DUP_ENTRY condition of the UPDATE: the new email collides with a
row other than the one being updated. -/
def emailConflict (db : Db) (idv : JsNum) (p : UserPatch) : Bool :=
  match p.email with
  | some e => db.rows.any (fun r => r.email == e && !(idv.matchesId r.id))
  | none => false

/-- `router.put('/:id', validateRequest(userUpdateSchema))`: the middleware
validates first (400, storage untouched), then the handler coerces the id
(400 on NaN), checks existence (404), updates merging the supplied fields
with updatedAt := now (409 on email collision), refetches the row and
returns it with 200. -/
def updateUser (now : Nat) (db : Db) (idStr : String) (body : ReqBody) : Resp × Db :=
  match Backend.userUpdateSchema body with
  | .error errs => (validationErrorResp errs, db)
  | .ok p =>
    match jsNumber idStr with
    | .nan => (⟨400, some (.message "Formato de ID inválido")⟩, db)
    | idv =>
      match db.rows.filter (fun r => idv.matchesId r.id) with
      | [] => (⟨404, some (.message "Usuário não encontrado")⟩, db)
      | _ :: _ =>
        if emailConflict db idv p then
          (⟨409, some (.message "Email já existe")⟩, db)
        else
          let db2 : Db :=
            ⟨db.rows.map (fun r => if idv.matchesId r.id then applyUpdate r p now else r),
             db.nextId⟩
          (⟨200, ((db2.rows.filter (fun r => idv.matchesId r.id)).head?).map .userRow⟩, db2)

/-- `router.delete('/:id')`: coerce the id (400 on NaN), check existence
(404), DELETE the matching row, 204 with an empty body. -/
def deleteUser (db : Db) (idStr : String) : Resp × Db :=
  match jsNumber idStr with
  | .nan => (⟨400, some (.message "Formato de ID inválido")⟩, db)
  | idv =>
    match db.rows.filter (fun r => idv.matchesId r.id) with
    | [] => (⟨404, some (.message "Usuário não encontrado")⟩, db)
    | _ :: _ =>
      (⟨204, none⟩, ⟨db.rows.filter (fun r => !(idv.matchesId r.id)), db.nextId⟩)

/-!  Client-side submission pipeline (frontend/src/pages/UserForm.jsx). -/

/-- JavaScript `String.prototype.replace` with a string pattern: only the
first occurrence is replaced. -/
def replaceFirst (str pat rep : String) : String :=
  match splitOnCL pat.toList str.toList with
  | [] => str
  | [_] => str
  | x :: y :: rest => String.mk (x ++ rep.toList ++ List.intercalate pat.toList (y :: rest))

/-- The synthesized placeholder avatar of UserForm.onSubmit:
`https://ui-avatars.com/api/?name=` with the display name, its first space
replaced by `+`. -/
def defaultAvatarUrl (name : String) : String :=
  "https://ui-avatars.com/api/?name=" ++ replaceFirst name " " "+"

/-- The avatar substitution of UserForm.onSubmit: when `data.avatar` is
falsy or trims to the empty string, it is replaced by the synthesized URL. -/
def applyAvatarDefault (d : UserFull) : UserFull :=
  match d.avatar with
  | none => { d with avatar := some (defaultAvatarUrl d.name) }
  | some a =>
    if trimCL a.toList == [] then { d with avatar := some (defaultAvatarUrl d.name) } else d

/-- A create-mode form submission: `handleSubmit` runs the zodResolver
validation first — on failure the form displays the field errors and no
request is issued (`none`); only then does `onSubmit` run on the validated
data, apply the avatar substitution, and send the payload to
`userService.createUser` (`some payload`). -/
def clientSubmitCreate (raw : ReqBody) : Option UserFull :=
  match Frontend.userSchema raw with
  | .error _ => none
  | .ok d => some (applyAvatarDefault d)

/-- The same onSubmit avatar substitution on an edit-mode (partial)
payload.  `data.name.replace(...)` reads the name from the payload; the
form registers every field, so a submission always carries one — the
absent-name default here covers the patch values an actual submission
never produces, and the theorems about this function hypothesize a present
name. -/
def applyAvatarDefaultP (d : UserPatch) : UserPatch :=
  match d.avatar with
  | none => { d with avatar := some (defaultAvatarUrl (d.name.getD "")) }
  | some a =>
    if trimCL a.toList == [] then { d with avatar := some (defaultAvatarUrl (d.name.getD "")) }
    else d

/-- An edit-mode form submission: `handleSubmit` runs the zodResolver
validation with `userSchema.partial()` first — on failure the form displays
the field errors and no request is issued (`none`); only then does
`onSubmit` run on the validated data, apply the same avatar substitution,
and send the payload to `userService.updateUser` (PUT) (`some payload`). -/
def clientSubmitEdit (raw : ReqBody) : Option UserPatch :=
  match Frontend.userUpdateSchema raw with
  | .error _ => none
  | .ok d => some (applyAvatarDefaultP d)

/-!  Helper lemmas. -/

/-- The accepted normalized value of a validation outcome (`none` = rejected). -/
def okVal {α : Type} : Except (List FieldError) α → Option α
  | .ok a => some a
  | .error _ => none

/-- A failed run of the full backend schema reports at least one issue. -/
theorem Backend.userSchema_error_ne_nil (o : ReqBody) (e : List FieldError)
    (h : Backend.userSchema o = .error e) : e ≠ [] := by
  intro he
  subst he
  rcases h1 : Backend.parseName o with e1 | n <;>
    rcases h2 : Backend.parseEmail o with e2 | em <;>
      rcases h3 : Backend.parseAvatar o with e3 | a <;>
        rcases h4 : Backend.parseRole o with e4 | r <;>
          rcases h5 : Backend.parseStatus o with e5 | st <;>
            simp_all [Backend.userSchema, Backend.userSchemaErrors, errsOf]

/-- A failed run of the partial backend schema reports at least one issue. -/
theorem Backend.userUpdateSchema_error_ne_nil (o : ReqBody) (e : List FieldError)
    (h : Backend.userUpdateSchema o = .error e) : e ≠ [] := by
  intro he
  subst he
  rcases h1 : Backend.parseNameP o with e1 | n <;>
    rcases h2 : Backend.parseEmailP o with e2 | em <;>
      rcases h3 : Backend.parseAvatarP o with e3 | a <;>
        rcases h4 : Backend.parseRoleP o with e4 | r <;>
          rcases h5 : Backend.parseStatusP o with e5 | st <;>
            simp_all [Backend.userUpdateSchema, Backend.userUpdateSchemaErrors, errsOf]

/-- When the avatar field fails, the whole backend schema fails. -/
theorem Backend.userSchema_error_of_avatar (o : ReqBody) (fe : FieldError)
    (h : Backend.parseAvatar o = .error fe) :
    Backend.userSchema o = .error (Backend.userSchemaErrors o) := by
  rcases h1 : Backend.parseName o with e1 | n <;>
    rcases h2 : Backend.parseEmail o with e2 | em <;>
      rcases h4 : Backend.parseRole o with e4 | r <;>
        rcases h5 : Backend.parseStatus o with e5 | st <;>
          simp_all [Backend.userSchema]

/-- A backend schema success on a body with no avatar key carries no avatar. -/
theorem Backend.userSchema_avatar_none (o : ReqBody) (u : UserFull)
    (hk : getKey o "avatar" = none) (h : Backend.userSchema o = .ok u) :
    u.avatar = none := by
  have ha : Backend.parseAvatar o = .ok none := by
    unfold Backend.parseAvatar
    rw [hk]
  unfold Backend.userSchema at h
  rw [ha] at h
  rcases h1 : Backend.parseName o with e1 | n <;> rw [h1] at h <;>
    rcases h2 : Backend.parseEmail o with e2 | em <;> rw [h2] at h <;>
      rcases h4 : Backend.parseRole o with e4 | r <;> rw [h4] at h <;>
        rcases h5 : Backend.parseStatus o with e5 | st <;> rw [h5] at h <;>
          simp only [] at h <;> cases h <;> rfl

/-!  Claim theorems. -/

/-- A well-formed create request body used by several concrete scenarios. -/
def anaBody : ReqBody :=
  [("name", .s "Ana Silva"), ("email", .s "ana@x.com"),
   ("role", .s "user"), ("status", .s "active")]

/-- Claim C1, counterexample: the valid create request of the spec's own
example yields status 201, but the response body is the `$returningId()`
object `{ id: 1 }` — a JSON object with no name/email/avatar/role/status/
createdAt/updatedAt members — even though the row stored for it does carry
the submitted name.  So the body is not the created User record. -/
theorem C1_counterexample :
    (createUser 100 ⟨[], 1⟩ anaBody).1.status = 201 ∧
    (createUser 100 ⟨[], 1⟩ anaBody).1.body = some (RespBody.insertId 1) ∧
    RespBody.jsonFields (RespBody.insertId 1) = some [("id", SVal.n 1)] ∧
    getKey [("id", SVal.n 1)] "name" = none ∧
    getKey [("id", SVal.n 1)] "email" = none ∧
    ((createUser 100 ⟨[], 1⟩ anaBody).2.rows.map Row.name) = ["Ana Silva"] := by
  refine ⟨rfl, rfl, rfl, rfl, rfl, rfl⟩

/-- Claim C1 (amended): for every valid create request on a database without
that email, POST /api/users responds with status 201 and a body holding only
the system-assigned integer id; the created row itself has all fields
populated from the validated payload with createdAt equal to updatedAt at
creation. -/
theorem C1_create (now : Nat) (db : Db) (body : ReqBody) (u : UserFull)
    (hv : Backend.userSchema body = .ok u)
    (hd : db.rows.any (fun r => r.email == u.email) = false) :
    createUser now db body =
      (⟨201, some (.insertId db.nextId)⟩,
       ⟨db.rows ++ [⟨db.nextId, u.name, u.email, u.avatar, u.role, u.status, now, now⟩],
        db.nextId + 1⟩) ∧
    (Row.mk db.nextId u.name u.email u.avatar u.role u.status now now).createdAt =
      (Row.mk db.nextId u.name u.email u.avatar u.role u.status now now).updatedAt := by
  constructor
  · simp [createUser, hv, hd]
  · rfl

/-- Witness for C1_create: the spec's example request against an empty
database gets 201 with body `{ id: 1 }`. -/
theorem C1_create_witness :
    Backend.userSchema anaBody =
      .ok ⟨"Ana Silva", "ana@x.com", none, "user", "active"⟩ ∧
    ((⟨[], 1⟩ : Db).rows.any (fun r => r.email == "ana@x.com") = false) ∧
    createUser 100 ⟨[], 1⟩ anaBody =
      (⟨201, some (.insertId 1)⟩,
       ⟨[⟨1, "Ana Silva", "ana@x.com", none, "user", "active", 100, 100⟩], 2⟩) :=
  ⟨rfl, rfl,
    (C1_create 100 ⟨[], 1⟩ anaBody ⟨"Ana Silva", "ana@x.com", none, "user", "active"⟩
      rfl rfl).1⟩

/-- Claim C2, counterexample: a create request whose avatar field is the
empty string, sent directly against the API, is rejected by the backend
schema (`z.string().url().optional()` accepts no empty string) with a 400
validation error naming the avatar path, and nothing is persisted — the
server does not accept it. -/
theorem C2_counterexample :
    createUser 100 ⟨[], 1⟩ (anaBody ++ [("avatar", .s "")]) =
      (⟨400, some (.validationError [⟨"avatar", "Avatar must be a valid URL"⟩])⟩,
       ⟨[], 1⟩) := by
  rfl

/-- Claim C2 (amended): the server never re-derives a default avatar: a
create request with no avatar key is accepted and persisted with a NULL
avatar, unchanged; a create request carrying an empty-string avatar is not
accepted but rejected with a 400 validation error, leaving storage
untouched. -/
theorem C2_avatar_server_side (now : Nat) (db : Db) (b1 b2 : ReqBody) (u : UserFull)
    (hk : getKey b1 "avatar" = none)
    (hv : Backend.userSchema b1 = .ok u)
    (hd : db.rows.any (fun r => r.email == u.email) = false)
    (h2 : getKey b2 "avatar" = some (.s "")) :
    u.avatar = none ∧
    (createUser now db b1).2.rows =
      db.rows ++ [⟨db.nextId, u.name, u.email, none, u.role, u.status, now, now⟩] ∧
    (createUser now db b2).1.status = 400 ∧
    (createUser now db b2).2 = db := by
  have hu : u.avatar = none := Backend.userSchema_avatar_none b1 u hk hv
  have ha2 : Backend.parseAvatar b2 = .error ⟨"avatar", "Avatar must be a valid URL"⟩ := by
    unfold Backend.parseAvatar
    rw [h2]
    rfl
  have hs2 := Backend.userSchema_error_of_avatar b2 _ ha2
  refine ⟨hu, ?_, ?_, ?_⟩
  · simp [createUser, hv, hd, ← hu]
  · simp [createUser, hs2, validationErrorResp]
  · simp [createUser, hs2, validationErrorResp]

/-- Witness for C2_avatar_server_side: the concrete avatar-less request is
stored with NULL avatar; the same request with an empty-string avatar gets
400 and leaves the database empty. -/
theorem C2_avatar_server_side_witness :
    getKey anaBody "avatar" = none ∧
    (createUser 100 ⟨[], 1⟩ anaBody).2.rows =
      [⟨1, "Ana Silva", "ana@x.com", none, "user", "active", 100, 100⟩] ∧
    (createUser 100 ⟨[], 1⟩ (anaBody ++ [("avatar", SVal.s "")])).1.status = 400 ∧
    (createUser 100 ⟨[], 1⟩ (anaBody ++ [("avatar", SVal.s "")])).2 = ⟨[], 1⟩ := by
  have h := C2_avatar_server_side 100 ⟨[], 1⟩ anaBody (anaBody ++ [("avatar", SVal.s "")])
    ⟨"Ana Silva", "ana@x.com", none, "user", "active"⟩ rfl rfl rfl rfl
  exact ⟨rfl, h.2.1, h.2.2.1, h.2.2.2⟩

/-- The accepted value of a single-field parse (`none` = this field failed). -/
def okValF {α : Type} : Except FieldError α → Option α
  | .ok a => some a
  | .error _ => none

/-- Combining the five field outcomes the way `z.object` does: a normalized
record exactly when every field succeeded. -/
def mkFull : Option String → Option String → Option (Option String) →
    Option String → Option String → Option UserFull
  | some n, some e, some a, some r, some st => some ⟨n, e, a, r, st⟩
  | _, _, _, _, _ => none

/-- The frontend schema accepts exactly when all five fields do. -/
theorem Frontend.userSchema_okVal_f (o : ReqBody) :
    okVal (Frontend.userSchema o) =
      mkFull (okValF (Frontend.parseName o)) (okValF (Frontend.parseEmail o))
        (okValF (Frontend.parseAvatar o)) (okValF (Frontend.parseRole o))
        (okValF (Frontend.parseStatus o)) := by
  rcases h1 : Frontend.parseName o with e1 | n <;>
    rcases h2 : Frontend.parseEmail o with e2 | em <;>
      rcases h3 : Frontend.parseAvatar o with e3 | a <;>
        rcases h4 : Frontend.parseRole o with e4 | r <;>
          rcases h5 : Frontend.parseStatus o with e5 | st <;>
            simp_all [Frontend.userSchema, okVal, okValF, mkFull]

/-- The backend schema accepts exactly when all five fields do. -/
theorem Backend.userSchema_okVal_b (o : ReqBody) :
    okVal (Backend.userSchema o) =
      mkFull (okValF (Backend.parseName o)) (okValF (Backend.parseEmail o))
        (okValF (Backend.parseAvatar o)) (okValF (Backend.parseRole o))
        (okValF (Backend.parseStatus o)) := by
  rcases h1 : Backend.parseName o with e1 | n <;>
    rcases h2 : Backend.parseEmail o with e2 | em <;>
      rcases h3 : Backend.parseAvatar o with e3 | a <;>
        rcases h4 : Backend.parseRole o with e4 | r <;>
          rcases h5 : Backend.parseStatus o with e5 | st <;>
            simp_all [Backend.userSchema, okVal, okValF, mkFull]

/-- Frontend and backend agree on the name field up to messages. -/
theorem parseName_agree (o : ReqBody) :
    okValF (Frontend.parseName o) = okValF (Backend.parseName o) := by
  unfold Frontend.parseName Backend.parseName
  cases h : getKey o "name" with
  | none => rfl
  | some v =>
    cases v with
    | s a => by_cases hc : 2 ≤ a.length <;> simp [okValF, hc]
    | n v => rfl
    | null => rfl

/-- Frontend and backend agree on the email field up to messages. -/
theorem parseEmail_agree (o : ReqBody) :
    okValF (Frontend.parseEmail o) = okValF (Backend.parseEmail o) := by
  unfold Frontend.parseEmail Backend.parseEmail
  cases h : getKey o "email" with
  | none => rfl
  | some v =>
    cases v with
    | s a => rcases hc : isEmail a <;> simp [okValF, hc]
    | n v => rfl
    | null => rfl

/-- Frontend and backend agree on the role field up to messages. -/
theorem parseRole_agree (o : ReqBody) :
    okValF (Frontend.parseRole o) = okValF (Backend.parseRole o) := by
  unfold Frontend.parseRole Backend.parseRole
  cases h : getKey o "role" with
  | none => rfl
  | some v =>
    cases v with
    | s a => rcases hc : (a == "admin" || a == "user") <;> simp [okValF, hc]
    | n v => rfl
    | null => rfl

/-- Frontend and backend agree on the status field up to messages. -/
theorem parseStatus_agree (o : ReqBody) :
    okValF (Frontend.parseStatus o) = okValF (Backend.parseStatus o) := by
  unfold Frontend.parseStatus Backend.parseStatus
  cases h : getKey o "status" with
  | none => rfl
  | some v =>
    cases v with
    | s a => rcases hc : (a == "active" || a == "inactive") <;> simp [okValF, hc]
    | n v => rfl
    | null => rfl

/-- Frontend and backend agree on the avatar field whenever its value is not
the empty string: the frontend's extra `.or(z.literal(''))` branch is the
only divergence. -/
theorem parseAvatar_agree (o : ReqBody) (h : getKey o "avatar" ≠ some (SVal.s "")) :
    okValF (Frontend.parseAvatar o) = okValF (Backend.parseAvatar o) := by
  unfold Frontend.parseAvatar Backend.parseAvatar
  cases hk : getKey o "avatar" with
  | none => rfl
  | some v =>
    cases v with
    | s a =>
      rcases hu : isUrl a with hf | ht
      · have ha : a ≠ "" := by
          intro he
          subst he
          exact h hk
        simp [okValF, hu, ha]
      · simp [okValF, hu]
    | n v => rfl
    | null => rfl

/-- Claim C3, counterexample: the payload with an empty-string avatar is
accepted (with the empty string preserved) by the frontend schema through
its `.or(z.literal(''))` branch, but rejected by the backend schema — so the
two validation schemas are not the same function of the input payload. -/
theorem C3_counterexample :
    Frontend.userSchema
        [("name", SVal.s "Ana Silva"), ("email", SVal.s "ana@x.com"), ("avatar", SVal.s "")] =
      .ok ⟨"Ana Silva", "ana@x.com", some "", "user", "active"⟩ ∧
    Backend.userSchema
        [("name", SVal.s "Ana Silva"), ("email", SVal.s "ana@x.com"), ("avatar", SVal.s "")] =
      .error [⟨"avatar", "Avatar must be a valid URL"⟩] := by
  constructor <;> rfl

/-- Claim C3 (amended): on every payload whose avatar entry is not the empty
string, the frontend and backend schemas are the same pure function of the
payload: both either accept it with the same normalized value or reject it
(`okVal` returns the accepted value, `none` meaning rejection).  Their sole
behavioural divergence is the empty-string avatar, which the frontend
accepts and the backend rejects; both are deterministic functions of the
payload. -/
theorem C3_schemas_agree (o : ReqBody) (h : getKey o "avatar" ≠ some (SVal.s "")) :
    okVal (Frontend.userSchema o) = okVal (Backend.userSchema o) := by
  rw [Frontend.userSchema_okVal_f, Backend.userSchema_okVal_b,
    parseName_agree, parseEmail_agree, parseAvatar_agree o h,
    parseRole_agree, parseStatus_agree]

/-- Witness for C3_schemas_agree: on the spec's example payload (no avatar
key at all) both schemas accept with the same normalized record. -/
theorem C3_schemas_agree_witness :
    getKey anaBody "avatar" ≠ some (SVal.s "") ∧
    okVal (Frontend.userSchema anaBody) = okVal (Backend.userSchema anaBody) := by
  refine ⟨by decide, C3_schemas_agree anaBody (by decide)⟩

/-- Claim C4: every payload that fails validation (missing required field on
create, or invalid value on create or update) is rejected by the
`validateRequest` middleware with status 400 and body
`{ message: 'Validation error', errors: [{ path, message }, ...] }` listing
the offending field paths (the list is never empty), and the table is
unchanged — the handler, and hence any storage operation, is never reached. -/
theorem C4_validation_rejects (now : Nat) (db : Db) (idStr : String) (b1 b2 : ReqBody)
    (e1 e2 : List FieldError)
    (h1 : Backend.userSchema b1 = .error e1)
    (h2 : Backend.userUpdateSchema b2 = .error e2) :
    createUser now db b1 = (⟨400, some (.validationError e1)⟩, db) ∧
    updateUser now db idStr b2 = (⟨400, some (.validationError e2)⟩, db) ∧
    e1 ≠ [] ∧ e2 ≠ [] := by
  refine ⟨?_, ?_, Backend.userSchema_error_ne_nil b1 e1 h1,
    Backend.userUpdateSchema_error_ne_nil b2 e2 h2⟩
  · simp [createUser, h1, validationErrorResp]
  · simp [updateUser, h2, validationErrorResp]

/-- Witness for C4_validation_rejects: a create body missing name and email
is refused with both paths listed; an update body with a 1-character name is
refused with the name path; the table stays empty in both cases. -/
theorem C4_validation_rejects_witness :
    Backend.userSchema [] = .error [⟨"name", "Required"⟩, ⟨"email", "Required"⟩] ∧
    Backend.userUpdateSchema [("name", SVal.s "A")] =
      .error [⟨"name", "Name must be at least 2 characters long"⟩] ∧
    createUser 100 ⟨[], 1⟩ [] =
      (⟨400, some (.validationError [⟨"name", "Required"⟩, ⟨"email", "Required"⟩])⟩, ⟨[], 1⟩) ∧
    updateUser 100 ⟨[], 1⟩ "1" [("name", SVal.s "A")] =
      (⟨400, some (.validationError [⟨"name", "Name must be at least 2 characters long"⟩])⟩,
       ⟨[], 1⟩) := by
  have h := C4_validation_rejects 100 ⟨[], 1⟩ "1" [] [("name", SVal.s "A")]
    [⟨"name", "Required"⟩, ⟨"email", "Required"⟩]
    [⟨"name", "Name must be at least 2 characters long"⟩] rfl rfl
  exact ⟨rfl, rfl, h.1, h.2.1⟩

/-- Claim C5: creating twice with the same email: the first request succeeds
with 201; the second hits the storage uniqueness constraint (ER_DUP_ENTRY)
and is answered 409 with a message naming the duplicate email, leaving
storage unchanged; exactly one row with that email exists afterwards.  The
409 outcome is distinguishable from the generic 500 failure by its status
and message. -/
theorem C5_duplicate_email (now1 now2 : Nat) (db : Db) (b1 b2 : ReqBody) (u1 u2 : UserFull)
    (h1 : Backend.userSchema b1 = .ok u1) (h2 : Backend.userSchema b2 = .ok u2)
    (he : u2.email = u1.email)
    (h0 : db.rows.any (fun r => r.email == u1.email) = false) :
    (createUser now1 db b1).1.status = 201 ∧
    createUser now2 (createUser now1 db b1).2 b2 =
      (⟨409, some (.message "Email já existe")⟩, (createUser now1 db b1).2) ∧
    ((createUser now1 db b1).2.rows.filter (fun r => r.email == u1.email)).length = 1 := by
  have hstep : createUser now1 db b1 =
      (⟨201, some (.insertId db.nextId)⟩,
       ⟨db.rows ++ [⟨db.nextId, u1.name, u1.email, u1.avatar, u1.role, u1.status, now1, now1⟩],
        db.nextId + 1⟩) := by
    simp [createUser, h1, h0]
  have hnil : db.rows.filter (fun r => r.email == u1.email) = [] := by
    rw [List.filter_eq_nil]
    intro a ha
    have := List.any_eq_false.mp h0 a ha
    simpa using this
  refine ⟨by simp [hstep], ?_, ?_⟩
  · rw [hstep]
    have hany :
        ((db.rows ++
          [Row.mk db.nextId u1.name u1.email u1.avatar u1.role u1.status now1 now1]).any
            (fun r => r.email == u2.email)) = true := by
      simp [List.any_append, he]
    simp [createUser, h2, hany]
  · rw [hstep]
    simp [List.filter_append, hnil]

/-- Witness for C5_duplicate_email: creating Ana then Bob with the same
email: 201 then 409 `Email já existe`, and exactly one stored row holds the
email. -/
theorem C5_duplicate_email_witness :
    Backend.userSchema anaBody = .ok ⟨"Ana Silva", "ana@x.com", none, "user", "active"⟩ ∧
    (createUser 100 ⟨[], 1⟩ anaBody).1.status = 201 ∧
    createUser 200 (createUser 100 ⟨[], 1⟩ anaBody).2
        [("name", SVal.s "Bob Silva"), ("email", SVal.s "ana@x.com")] =
      (⟨409, some (.message "Email já existe")⟩, (createUser 100 ⟨[], 1⟩ anaBody).2) ∧
    ((createUser 100 ⟨[], 1⟩ anaBody).2.rows.filter
        (fun r => r.email == "ana@x.com")).length = 1 := by
  have h := C5_duplicate_email 100 200 ⟨[], 1⟩ anaBody
    [("name", SVal.s "Bob Silva"), ("email", SVal.s "ana@x.com")]
    ⟨"Ana Silva", "ana@x.com", none, "user", "active"⟩
    ⟨"Bob Silva", "ana@x.com", none, "user", "active"⟩ rfl rfl rfl rfl
  exact ⟨rfl, h.1, h.2.1, h.2.2⟩

/-- Claim C6: a successful partial update of an existing user changes only
the supplied fields: every unspecified field — name, email, avatar, role,
status (not reset to their schema defaults), and always id and createdAt —
keeps its prior value, updatedAt is set to the update instant, and (the
clock having advanced since the row was last written) updatedAt strictly
increases.  The response is 200 with the merged row, and the table holds the
merged row in place of the old one. -/
theorem C6_partial_update_frame (now : Nat) (db : Db) (idStr : String) (i : Int)
    (body : ReqBody) (p : UserPatch) (r : Row)
    (hid : jsNumber idStr = .intVal i)
    (hv : Backend.userUpdateSchema body = .ok p)
    (hf : db.rows.filter (fun r2 => (JsNum.intVal i).matchesId r2.id) = [r])
    (hc : emailConflict db (.intVal i) p = false)
    (ht : r.updatedAt < now) :
    (updateUser now db idStr body).1 = ⟨200, some (.userRow (applyUpdate r p now))⟩ ∧
    (updateUser now db idStr body).2.rows =
      db.rows.map
        (fun r2 => if (JsNum.intVal i).matchesId r2.id then applyUpdate r2 p now else r2) ∧
    (applyUpdate r p now).id = r.id ∧
    (applyUpdate r p now).createdAt = r.createdAt ∧
    (p.name = none → (applyUpdate r p now).name = r.name) ∧
    (p.email = none → (applyUpdate r p now).email = r.email) ∧
    (p.avatar = none → (applyUpdate r p now).avatar = r.avatar) ∧
    (p.role = none → (applyUpdate r p now).role = r.role) ∧
    (p.status = none → (applyUpdate r p now).status = r.status) ∧
    r.updatedAt < (applyUpdate r p now).updatedAt := by
  have hrq : (JsNum.intVal i).matchesId r.id = true := by
    have hm : r ∈ db.rows.filter (fun r2 => (JsNum.intVal i).matchesId r2.id) := by
      rw [hf]
      exact List.mem_singleton_self r
    exact (List.mem_filter.mp hm).2
  have hfe :
      db.rows.filter
          ((fun r2 => (JsNum.intVal i).matchesId r2.id) ∘
            (fun r2 => if (JsNum.intVal i).matchesId r2.id then applyUpdate r2 p now else r2)) =
        db.rows.filter (fun r2 => (JsNum.intVal i).matchesId r2.id) := by
    refine List.filter_congr ?_
    intro x hx
    by_cases hq : (JsNum.intVal i).matchesId x.id = true
    · simp [Function.comp, hq, applyUpdate]
    · simp [Function.comp, hq]
  have hmain :
      ((db.rows.map
          (fun r2 => if (JsNum.intVal i).matchesId r2.id then applyUpdate r2 p now else r2)).filter
        (fun r2 => (JsNum.intVal i).matchesId r2.id)) = [applyUpdate r p now] := by
    rw [List.filter_map, hfe, hf]
    simp [hrq]
  have hu : updateUser now db idStr body =
      (⟨200, some (.userRow (applyUpdate r p now))⟩,
       ⟨db.rows.map
          (fun r2 => if (JsNum.intVal i).matchesId r2.id then applyUpdate r2 p now else r2),
        db.nextId⟩) := by
    simp only [updateUser, hv, hid, hf, hc]
    rw [hmain]
    rfl
  refine ⟨by rw [hu], by rw [hu], rfl, rfl, ?_, ?_, ?_, ?_, ?_, ?_⟩
  · intro h
    simp [applyUpdate, h]
  · intro h
    simp [applyUpdate, h]
  · intro h
    simp [applyUpdate, h]
  · intro h
    simp [applyUpdate, h]
  · intro h
    simp [applyUpdate, h]
  · simpa [applyUpdate] using ht

/-- Witness for C6_partial_update_frame: updating only the name of the
stored Ana row keeps email, avatar, role, status, id and createdAt, and
moves updatedAt from 10 to 50. -/
theorem C6_partial_update_frame_witness :
    (10 : Nat) < 50 ∧
    (updateUser 50 ⟨[Row.mk 1 "Ana Silva" "ana@x.com" none "user" "active" 10 10], 2⟩ "1"
        [("name", SVal.s "Maria Silva")]).1 =
      ⟨200, some (.userRow (applyUpdate
        (Row.mk 1 "Ana Silva" "ana@x.com" none "user" "active" 10 10)
        ⟨some "Maria Silva", none, none, none, none⟩ 50))⟩ ∧
    applyUpdate (Row.mk 1 "Ana Silva" "ana@x.com" none "user" "active" 10 10)
        ⟨some "Maria Silva", none, none, none, none⟩ 50 =
      Row.mk 1 "Maria Silva" "ana@x.com" none "user" "active" 10 50 := by
  have h := C6_partial_update_frame 50
    ⟨[Row.mk 1 "Ana Silva" "ana@x.com" none "user" "active" 10 10], 2⟩ "1" 1
    [("name", SVal.s "Maria Silva")] ⟨some "Maria Silva", none, none, none, none⟩
    (Row.mk 1 "Ana Silva" "ana@x.com" none "user" "active" 10 10) rfl rfl rfl rfl (by decide)
  exact ⟨by decide, h.1, rfl⟩

/-- Claim C7: DELETE on an id with no matching row answers 404 and leaves
the table unchanged (and GET agrees); DELETE on an existing id removes the
row permanently and answers an empty 204; immediately afterwards both a
second DELETE and a GET of the same id answer 404. -/
theorem C7_delete_lifecycle (db : Db) (idStr : String) (i : Int)
    (hid : jsNumber idStr = .intVal i) :
    (db.rows.filter (fun r => (JsNum.intVal i).matchesId r.id) = [] →
      deleteUser db idStr = (⟨404, some (.message "Usuário não encontrado")⟩, db) ∧
      getUserById db idStr = (⟨404, some (.message "Usuário não encontrado")⟩, db)) ∧
    (∀ r rest, db.rows.filter (fun r2 => (JsNum.intVal i).matchesId r2.id) = r :: rest →
      (deleteUser db idStr).1 = ⟨204, none⟩ ∧
      (deleteUser db idStr).2 =
        ⟨db.rows.filter (fun r2 => !((JsNum.intVal i).matchesId r2.id)), db.nextId⟩ ∧
      deleteUser (deleteUser db idStr).2 idStr =
        (⟨404, some (.message "Usuário não encontrado")⟩, (deleteUser db idStr).2) ∧
      getUserById (deleteUser db idStr).2 idStr =
        (⟨404, some (.message "Usuário não encontrado")⟩, (deleteUser db idStr).2)) := by
  constructor
  · intro h
    exact ⟨by simp [deleteUser, hid, h], by simp [getUserById, hid, h]⟩
  · intro r rest h
    have hdel : deleteUser db idStr =
        (⟨204, none⟩,
         ⟨db.rows.filter (fun r2 => !((JsNum.intVal i).matchesId r2.id)), db.nextId⟩) := by
      simp [deleteUser, hid, h]
    have hnil :
        ((db.rows.filter (fun r2 => !((JsNum.intVal i).matchesId r2.id))).filter
          (fun r2 => (JsNum.intVal i).matchesId r2.id)) = [] := by
      rw [List.filter_filter]
      simp
    refine ⟨by rw [hdel], by rw [hdel], ?_, ?_⟩
    · rw [hdel]
      simp [deleteUser, hid, hnil]
    · rw [hdel]
      simp [getUserById, hid, hnil]

/-- Witness for C7_delete_lifecycle: with one stored row of id 1, deleting
id 5 is a 404 no-op; deleting id 1 answers 204 with an empty body, and the
immediate re-delete and re-get of id 1 both answer 404. -/
theorem C7_delete_lifecycle_witness :
    deleteUser ⟨[Row.mk 1 "Ana Silva" "ana@x.com" none "user" "active" 10 10], 2⟩ "5" =
      (⟨404, some (.message "Usuário não encontrado")⟩,
       ⟨[Row.mk 1 "Ana Silva" "ana@x.com" none "user" "active" 10 10], 2⟩) ∧
    (deleteUser ⟨[Row.mk 1 "Ana Silva" "ana@x.com" none "user" "active" 10 10], 2⟩ "1").1 =
      ⟨204, none⟩ ∧
    deleteUser
        (deleteUser ⟨[Row.mk 1 "Ana Silva" "ana@x.com" none "user" "active" 10 10], 2⟩ "1").2
        "1" =
      (⟨404, some (.message "Usuário não encontrado")⟩,
       (deleteUser ⟨[Row.mk 1 "Ana Silva" "ana@x.com" none "user" "active" 10 10], 2⟩ "1").2) ∧
    getUserById
        (deleteUser ⟨[Row.mk 1 "Ana Silva" "ana@x.com" none "user" "active" 10 10], 2⟩ "1").2
        "1" =
      (⟨404, some (.message "Usuário não encontrado")⟩,
       (deleteUser ⟨[Row.mk 1 "Ana Silva" "ana@x.com" none "user" "active" 10 10], 2⟩ "1").2) := by
  have h5 := (C7_delete_lifecycle
    ⟨[Row.mk 1 "Ana Silva" "ana@x.com" none "user" "active" 10 10], 2⟩ "5" 5 rfl).1 rfl
  have h1 := (C7_delete_lifecycle
    ⟨[Row.mk 1 "Ana Silva" "ana@x.com" none "user" "active" 10 10], 2⟩ "1" 1 rfl).2
    (Row.mk 1 "Ana Silva" "ana@x.com" none "user" "active" 10 10) [] rfl
  exact ⟨h5.1, h1.1, h1.2.2.1, h1.2.2.2⟩

/-- Claim C8, counterexample: the path parameter `1.5` is not a valid
integer id format, yet `Number('1.5')` is not NaN, so the route is not
answered 400: the storage lookup runs and GET /:id answers 404 instead. -/
theorem C8_counterexample :
    jsNumber "1.5" = JsNum.nonInt ∧
    getUserById ⟨[Row.mk 1 "Ana Silva" "ana@x.com" none "user" "active" 10 10], 2⟩ "1.5" =
      (⟨404, some (.message "Usuário não encontrado")⟩,
       ⟨[Row.mk 1 "Ana Silva" "ana@x.com" none "user" "active" 10 10], 2⟩) :=
  ⟨rfl, rfl⟩

/-- Claim C8 (amended): for every id path parameter whose JavaScript
`Number(...)` coercion is NaN, GET /:id, PUT /:id and DELETE /:id answer
400 (GET and DELETE with the invalid-id-format message; PUT with 400 from
either the validation middleware or the id check) and the table is
unchanged.  Numeric but non-integer ids such as `1.5` pass the NaN check
and fall through to the storage lookup, answering 404. -/
theorem C8_invalid_id_format (now : Nat) (db : Db) (idStr : String) (body : ReqBody)
    (h : jsNumber idStr = .nan) :
    getUserById db idStr = (⟨400, some (.message "Formato de ID inválido")⟩, db) ∧
    deleteUser db idStr = (⟨400, some (.message "Formato de ID inválido")⟩, db) ∧
    (updateUser now db idStr body).1.status = 400 ∧
    (updateUser now db idStr body).2 = db := by
  refine ⟨by simp [getUserById, h], by simp [deleteUser, h], ?_, ?_⟩ <;>
    rcases hv : Backend.userUpdateSchema body with e | p <;>
      simp [updateUser, hv, h, validationErrorResp]

/-- Witness for C8_invalid_id_format: the id `abc` coerces to NaN, so all
three id routes answer 400 against the one-row table, which is unchanged. -/
theorem C8_invalid_id_format_witness :
    jsNumber "abc" = JsNum.nan ∧
    getUserById ⟨[Row.mk 1 "Ana Silva" "ana@x.com" none "user" "active" 10 10], 2⟩ "abc" =
      (⟨400, some (.message "Formato de ID inválido")⟩,
       ⟨[Row.mk 1 "Ana Silva" "ana@x.com" none "user" "active" 10 10], 2⟩) ∧
    deleteUser ⟨[Row.mk 1 "Ana Silva" "ana@x.com" none "user" "active" 10 10], 2⟩ "abc" =
      (⟨400, some (.message "Formato de ID inválido")⟩,
       ⟨[Row.mk 1 "Ana Silva" "ana@x.com" none "user" "active" 10 10], 2⟩) ∧
    (updateUser 100 ⟨[Row.mk 1 "Ana Silva" "ana@x.com" none "user" "active" 10 10], 2⟩ "abc"
        [("name", SVal.s "Maria Silva")]).2 =
      ⟨[Row.mk 1 "Ana Silva" "ana@x.com" none "user" "active" 10 10], 2⟩ := by
  have h := C8_invalid_id_format 100
    ⟨[Row.mk 1 "Ana Silva" "ana@x.com" none "user" "active" 10 10], 2⟩ "abc"
    [("name", SVal.s "Maria Silva")] rfl
  exact ⟨rfl, h.1, h.2.1, h.2.2.2⟩

/-- Claim C9, counterexample: a create-mode form submission with the
whitespace-only avatar value (a single space) never synthesizes a
placeholder avatar: `handleSubmit` runs the zodResolver validation first,
the frontend schema rejects a whitespace-only avatar (not a URL, not the
empty-string literal), and `onSubmit` — where the substitution lives — is
never reached, so no request is issued at all. -/
theorem C9_counterexample :
    trimCL (" ").toList = [] ∧
    clientSubmitCreate
      [("name", SVal.s "Ana Silva"), ("email", SVal.s "ana@x.com"), ("avatar", SVal.s " "),
       ("role", SVal.s "user"), ("status", SVal.s "active")] = none :=
  ⟨rfl, rfl⟩

/-- Claim C9 (amended): for every client form submission — create mode
(POST) and edit mode (PUT) alike — that passes client validation with an
empty avatar (absent, or the empty string — the only empty-like values
validation lets through; whitespace-only values are rejected before
`onSubmit`), the client synthesizes the placeholder avatar URL embedding
the user's display name (first space replaced by `+`) into the ui-avatars
template, after validation and before issuing the request; the other fields
are sent unchanged. -/
theorem C9_avatar_substitution (raw rawE : ReqBody) (d : UserFull) (p : UserPatch)
    (nm : String)
    (hv : Frontend.userSchema raw = .ok d)
    (he : d.avatar = none ∨ d.avatar = some "")
    (hvE : Frontend.userUpdateSchema rawE = .ok p)
    (hn : p.name = some nm)
    (heE : p.avatar = none ∨ p.avatar = some "") :
    clientSubmitCreate raw = some (applyAvatarDefault d) ∧
    (applyAvatarDefault d).avatar = some (defaultAvatarUrl d.name) ∧
    (applyAvatarDefault d).name = d.name ∧
    (applyAvatarDefault d).email = d.email ∧
    clientSubmitEdit rawE = some (applyAvatarDefaultP p) ∧
    (applyAvatarDefaultP p).avatar = some (defaultAvatarUrl nm) ∧
    (applyAvatarDefaultP p).name = p.name ∧
    (applyAvatarDefaultP p).email = p.email := by
  refine ⟨by simp [clientSubmitCreate, hv], ?_, ?_, ?_,
    by simp [clientSubmitEdit, hvE], ?_, ?_, ?_⟩ <;>
    first
      | (rcases he with h | h <;> simp [applyAvatarDefault, h, trimCL])
      | (rcases heE with h | h <;> simp [applyAvatarDefaultP, h, hn, trimCL])

/-- Witness for C9_avatar_substitution: the create-mode payload with an
empty-string avatar and the edit-mode payload that clears the avatar are
each validated, then sent with the synthesized
`https://ui-avatars.com/api/?name=Ana+Silva` avatar. -/
theorem C9_avatar_substitution_witness :
    Frontend.userSchema
        [("name", SVal.s "Ana Silva"), ("email", SVal.s "ana@x.com"), ("avatar", SVal.s ""),
         ("role", SVal.s "user"), ("status", SVal.s "active")] =
      .ok ⟨"Ana Silva", "ana@x.com", some "", "user", "active"⟩ ∧
    Frontend.userUpdateSchema [("name", SVal.s "Ana Silva"), ("avatar", SVal.s "")] =
      .ok ⟨some "Ana Silva", none, some "", none, none⟩ ∧
    clientSubmitCreate
        [("name", SVal.s "Ana Silva"), ("email", SVal.s "ana@x.com"), ("avatar", SVal.s ""),
         ("role", SVal.s "user"), ("status", SVal.s "active")] =
      some (applyAvatarDefault ⟨"Ana Silva", "ana@x.com", some "", "user", "active"⟩) ∧
    applyAvatarDefault ⟨"Ana Silva", "ana@x.com", some "", "user", "active"⟩ =
      ⟨"Ana Silva", "ana@x.com", some "https://ui-avatars.com/api/?name=Ana+Silva",
       "user", "active"⟩ ∧
    clientSubmitEdit [("name", SVal.s "Ana Silva"), ("avatar", SVal.s "")] =
      some (applyAvatarDefaultP ⟨some "Ana Silva", none, some "", none, none⟩) ∧
    applyAvatarDefaultP ⟨some "Ana Silva", none, some "", none, none⟩ =
      ⟨some "Ana Silva", none, some "https://ui-avatars.com/api/?name=Ana+Silva",
       none, none⟩ := by
  have h := C9_avatar_substitution
    [("name", SVal.s "Ana Silva"), ("email", SVal.s "ana@x.com"), ("avatar", SVal.s ""),
     ("role", SVal.s "user"), ("status", SVal.s "active")]
    [("name", SVal.s "Ana Silva"), ("avatar", SVal.s "")]
    ⟨"Ana Silva", "ana@x.com", some "", "user", "active"⟩
    ⟨some "Ana Silva", none, some "", none, none⟩ "Ana Silva"
    rfl (Or.inr rfl) rfl rfl (Or.inr rfl)
  exact ⟨rfl, rfl, h.1, rfl, h.2.2.2.2.1, rfl⟩

/-- The full backend schema reads nothing of the body but its five declared
keys. -/
theorem Backend.userSchema_congr (o1 o2 : ReqBody)
    (hn : getKey o1 "name" = getKey o2 "name")
    (he : getKey o1 "email" = getKey o2 "email")
    (ha : getKey o1 "avatar" = getKey o2 "avatar")
    (hr : getKey o1 "role" = getKey o2 "role")
    (hs : getKey o1 "status" = getKey o2 "status") :
    Backend.userSchema o1 = Backend.userSchema o2 := by
  have h1 : Backend.parseName o1 = Backend.parseName o2 := by
    unfold Backend.parseName
    rw [hn]
  have h2 : Backend.parseEmail o1 = Backend.parseEmail o2 := by
    unfold Backend.parseEmail
    rw [he]
  have h3 : Backend.parseAvatar o1 = Backend.parseAvatar o2 := by
    unfold Backend.parseAvatar
    rw [ha]
  have h4 : Backend.parseRole o1 = Backend.parseRole o2 := by
    unfold Backend.parseRole
    rw [hr]
  have h5 : Backend.parseStatus o1 = Backend.parseStatus o2 := by
    unfold Backend.parseStatus
    rw [hs]
  unfold Backend.userSchema Backend.userSchemaErrors
  rw [h1, h2, h3, h4, h5]

/-- The partial backend schema reads nothing of the body but its five
declared keys. -/
theorem Backend.userUpdateSchema_congr (o1 o2 : ReqBody)
    (hn : getKey o1 "name" = getKey o2 "name")
    (he : getKey o1 "email" = getKey o2 "email")
    (ha : getKey o1 "avatar" = getKey o2 "avatar")
    (hr : getKey o1 "role" = getKey o2 "role")
    (hs : getKey o1 "status" = getKey o2 "status") :
    Backend.userUpdateSchema o1 = Backend.userUpdateSchema o2 := by
  have h1 : Backend.parseNameP o1 = Backend.parseNameP o2 := by
    unfold Backend.parseNameP
    rw [hn]
  have h2 : Backend.parseEmailP o1 = Backend.parseEmailP o2 := by
    unfold Backend.parseEmailP
    rw [he]
  have h3 : Backend.parseAvatarP o1 = Backend.parseAvatarP o2 := by
    unfold Backend.parseAvatarP Backend.parseAvatar
    rw [ha]
  have h4 : Backend.parseRoleP o1 = Backend.parseRoleP o2 := by
    unfold Backend.parseRoleP
    rw [hr]
  have h5 : Backend.parseStatusP o1 = Backend.parseStatusP o2 := by
    unfold Backend.parseStatusP
    rw [hs]
  unfold Backend.userUpdateSchema Backend.userUpdateSchemaErrors
  rw [h1, h2, h3, h4, h5]

/-- Claim C10: validation strips every property of a POST or PUT body
outside name, email, avatar, role, status before it reaches the handler:
two bodies agreeing on those five keys are handled identically, whatever
other properties (id, createdAt, updatedAt, ...) they carry; and on a
successful create the stored row takes its id from the auto-increment
counter and both timestamps from the server clock, never from the body, so
id stays system-assigned and createdAt immutable at the public interface. -/
theorem C10_body_fields_stripped (now : Nat) (db : Db) (idStr : String) (o1 o2 : ReqBody)
    (hn : getKey o1 "name" = getKey o2 "name")
    (he : getKey o1 "email" = getKey o2 "email")
    (ha : getKey o1 "avatar" = getKey o2 "avatar")
    (hr : getKey o1 "role" = getKey o2 "role")
    (hs : getKey o1 "status" = getKey o2 "status") :
    createUser now db o1 = createUser now db o2 ∧
    updateUser now db idStr o1 = updateUser now db idStr o2 ∧
    (∀ u, Backend.userSchema o1 = .ok u →
      (db.rows.any (fun r => r.email == u.email)) = false →
      (createUser now db o1).2.rows =
        db.rows ++ [Row.mk db.nextId u.name u.email u.avatar u.role u.status now now]) := by
  have hc := Backend.userSchema_congr o1 o2 hn he ha hr hs
  have hcu := Backend.userUpdateSchema_congr o1 o2 hn he ha hr hs
  refine ⟨?_, ?_, ?_⟩
  · unfold createUser
    rw [hc]
  · unfold updateUser
    rw [hcu]
  · intro u hu hd
    simp [createUser, hu, hd]

/-- Witness for C10_body_fields_stripped: a body that additionally tries to
set id 999 and createdAt/updatedAt 0 is treated exactly as the clean body,
and the stored row still gets id 1 (the counter) and timestamps 100 (the
clock). -/
theorem C10_body_fields_stripped_witness :
    createUser 100 ⟨[], 1⟩
        (anaBody ++ [("id", SVal.n 999), ("createdAt", SVal.n 0), ("updatedAt", SVal.n 0)]) =
      createUser 100 ⟨[], 1⟩ anaBody ∧
    (createUser 100 ⟨[], 1⟩
        (anaBody ++
          [("id", SVal.n 999), ("createdAt", SVal.n 0), ("updatedAt", SVal.n 0)])).2.rows =
      [Row.mk 1 "Ana Silva" "ana@x.com" none "user" "active" 100 100] := by
  have h := C10_body_fields_stripped 100 ⟨[], 1⟩ "1"
    (anaBody ++ [("id", SVal.n 999), ("createdAt", SVal.n 0), ("updatedAt", SVal.n 0)]) anaBody
    rfl rfl rfl rfl rfl
  refine ⟨h.1, ?_⟩
  have h3 := h.2.2 ⟨"Ana Silva", "ana@x.com", none, "user", "active"⟩ rfl rfl
  simpa using h3
